import Mathlib

/-!
Verification development for the ROV control station (jdmremi/rov-2024).

The joystick-to-thrust pipeline of `app/joystickthread.py` and the serial
link workers of `app/arduinothread.py` are embedded shallowly: joystick
axis values and timestamps are rationals, Python `round` is embedded as
round-half-to-even, and the sampling tick / dispatcher / reader loops
become pure functions over explicit state and input lists.
-/

namespace Rov

/-- `RESTING_PULSEWIDTH = 1500.00` (joystickthread.py line 13). -/
def RESTING_PULSEWIDTH : ℚ := 1500

/-- `DEADZONE_MIN = 0.75` (joystickthread.py line 14). -/
def DEADZONE_MIN : ℚ := 3 / 4

/-- `PWM_DEADZONE_MIN = 0.1` (joystickthread.py line 15). -/
def PWM_DEADZONE_MIN : ℚ := 1 / 10

/-- `ARDUINO_SEND_TIMER_MIN = 0.1` (joystickthread.py line 16). -/
def ARDUINO_SEND_TIMER_MIN : ℚ := 1 / 10

/-- Python 3 `round` to an integer: round half to even. -/
def pyRound (q : ℚ) : ℤ :=
  if q - ⌊q⌋ < 1 / 2 then ⌊q⌋
  else if q - ⌊q⌋ > 1 / 2 then ⌊q⌋ + 1
  else if ⌊q⌋ % 2 = 0 then ⌊q⌋ else ⌊q⌋ + 1

/-- `JoystickThread.__map_to_pwm` (joystickthread.py lines 534-548):
deadzone `[-PWM_DEADZONE_MIN, PWM_DEADZONE_MIN]` returns 1500,
otherwise `400*(val + 1) + 1100`. -/
def map_to_pwm (val : ℚ) : ℚ :=
  if val ≥ -PWM_DEADZONE_MIN ∧ val ≤ PWM_DEADZONE_MIN then 1500
  else 400 * (val + 1) + 1100

/-- The `axis_info` dictionary built in `check_joystick_input`
(joystickthread.py lines 308-313): the four thumbstick axes after the
sampler deadzone. -/
structure AxisState where
  tLeft_LeftRight : ℚ
  tLeft_UpDown : ℚ
  tRight_LeftRight : ℚ
  tRight_UpDown : ℚ
  deriving DecidableEq

/-- The pulsewidth dictionary returned by `__calculate_pulsewidth`
(joystickthread.py lines 524-531): six integer pulsewidths. -/
structure ThrustCommand where
  forward_backward_pulsewidth : ℤ
  left_pulsewidth : ℤ
  right_pulsewidth : ℤ
  ascend_descend_pulsewidth : ℤ
  pitch_left_pulsewidth : ℤ
  pitch_right_pulsewidth : ℤ
  deriving DecidableEq

/-- `JoystickThread.__calculate_pulsewidth` (joystickthread.py lines
409-531).  Every pulsewidth starts at `RESTING_PULSEWIDTH`; each axis is
then mapped through `__map_to_pwm` under the same sign-case analysis as
the source (the `< 0` and `> 0` branches are kept separate exactly as
written, including the `else` branches of the ascend and pitch cases that
apply the map even at 0), and all results are rounded with Python
`round`.  The second `round` in the returned dictionary is the identity
on the already-rounded integers and is therefore not repeated. -/
def calculate_pulsewidth (axis_info : AxisState) : ThrustCommand :=
  let left_thumbstick_left_right := axis_info.tLeft_LeftRight
  let left_thumbstick_up_down := axis_info.tLeft_UpDown
  let right_thumbstick_left_right := axis_info.tRight_LeftRight
  let right_thumbstick_up_down := axis_info.tRight_UpDown
  let forward_backward_pulsewidth : ℚ :=
    if left_thumbstick_up_down < 0 then map_to_pwm left_thumbstick_up_down
    else if left_thumbstick_up_down > 0 then map_to_pwm left_thumbstick_up_down
    else RESTING_PULSEWIDTH
  let left_pulsewidth : ℚ :=
    if left_thumbstick_left_right < 0 then map_to_pwm left_thumbstick_left_right
    else if left_thumbstick_left_right > 0 then map_to_pwm left_thumbstick_left_right
    else RESTING_PULSEWIDTH
  let right_pulsewidth : ℚ :=
    if left_thumbstick_left_right < 0 then map_to_pwm (-left_thumbstick_left_right)
    else if left_thumbstick_left_right > 0 then map_to_pwm (-left_thumbstick_left_right)
    else RESTING_PULSEWIDTH
  let ascend_descend_pulsewidth : ℚ :=
    if right_thumbstick_up_down < 0 then map_to_pwm right_thumbstick_up_down
    else map_to_pwm right_thumbstick_up_down
  let pitch_left_pulsewidth : ℚ :=
    if right_thumbstick_left_right < 0 then map_to_pwm right_thumbstick_left_right
    else map_to_pwm right_thumbstick_left_right
  let pitch_right_pulsewidth : ℚ :=
    if right_thumbstick_left_right < 0 then map_to_pwm (-right_thumbstick_left_right)
    else map_to_pwm (-right_thumbstick_left_right)
  { forward_backward_pulsewidth := pyRound forward_backward_pulsewidth
    left_pulsewidth := pyRound left_pulsewidth
    right_pulsewidth := pyRound right_pulsewidth
    ascend_descend_pulsewidth := pyRound ascend_descend_pulsewidth
    pitch_left_pulsewidth := pyRound pitch_left_pulsewidth
    pitch_right_pulsewidth := pyRound pitch_right_pulsewidth }

/-- The raw readings `get_axis(0)` … `get_axis(5)` of one sampling tick
(joystickthread.py lines 278-283). -/
structure RawAxes where
  axis0 : ℚ
  axis1 : ℚ
  axis2 : ℚ
  axis3 : ℚ
  axis4 : ℚ
  axis5 : ℚ
  deriving DecidableEq

/-- One per-axis sampler deadzone step (joystickthread.py lines 292-306):
a value inside the deadzone is replaced by 0, any other value passes
through unchanged. -/
def apply_deadzone (v : ℚ) : ℚ := if |v| < DEADZONE_MIN then 0 else v

/-- A JSON value appearing in the `axisInfo` array sent to the Arduino:
Python `round` produces `int` entries, while a trigger that escapes the
deadzone stays a `float`. -/
inductive JVal where
  | int : ℤ → JVal
  | float : ℚ → JVal
  deriving DecidableEq

/-- The observable results of one run of the joystick-connected branch of
`check_joystick_input` (joystickthread.py lines 278-384): the deadzoned
axis snapshot, the pulsewidth set, the `axisInfo` array of the
`to_arduino` dictionary, and the rumble intensity passed to
`joystick.rumble`. -/
structure TickOutput where
  axis_info : AxisState
  pulsewidths : ThrustCommand
  to_arduino : List JVal
  rumble_intensity : ℚ
  deriving DecidableEq

/-- The joystick-connected branch of `check_joystick_input`
(joystickthread.py lines 278-384).  Axis 1 is sign-flipped on read; each
thumbstick axis and trigger is zeroed inside the deadzone (in Python the
rebinding is to the `int` literal `0`, which is what makes a deadzoned
trigger serialize as the JSON integer `0` while a live trigger stays a
float); the pulsewidths are computed from the deadzoned thumbstick axes;
the `to_arduino` array lists the six rounded pulsewidths followed by the
two trigger values; the rumble frequency is the maximum of the absolute
deadzoned thumbstick values and the rumble call receives its absolute
value. -/
def check_joystick_tick (raw : RawAxes) : TickOutput :=
  let left_thumbstick_left_right := raw.axis0
  let left_thumbstick_up_down := -raw.axis1
  let right_thumbstick_left_right := raw.axis2
  let right_thumbstick_up_down := raw.axis3
  let left_trigger := raw.axis4
  let right_trigger := raw.axis5
  let left_thumbstick_left_right :=
    if |left_thumbstick_left_right| < DEADZONE_MIN then 0 else left_thumbstick_left_right
  let left_thumbstick_up_down :=
    if |left_thumbstick_up_down| < DEADZONE_MIN then 0 else left_thumbstick_up_down
  let right_thumbstick_left_right :=
    if |right_thumbstick_left_right| < DEADZONE_MIN then 0 else right_thumbstick_left_right
  let right_thumbstick_up_down :=
    if |right_thumbstick_up_down| < DEADZONE_MIN then 0 else right_thumbstick_up_down
  let axis_info : AxisState :=
    { tLeft_LeftRight := left_thumbstick_left_right
      tLeft_UpDown := left_thumbstick_up_down
      tRight_LeftRight := right_thumbstick_left_right
      tRight_UpDown := right_thumbstick_up_down }
  let pulsewidths := calculate_pulsewidth axis_info
  let to_arduino : List JVal :=
    [JVal.int pulsewidths.forward_backward_pulsewidth,
      JVal.int pulsewidths.left_pulsewidth,
      JVal.int pulsewidths.right_pulsewidth,
      JVal.int pulsewidths.ascend_descend_pulsewidth,
      JVal.int pulsewidths.pitch_left_pulsewidth,
      JVal.int pulsewidths.pitch_right_pulsewidth,
      if |left_trigger| < DEADZONE_MIN then JVal.int 0 else JVal.float left_trigger,
      if |right_trigger| < DEADZONE_MIN then JVal.int 0 else JVal.float right_trigger]
  let rumble_freq :=
    max (max (max |left_thumbstick_left_right| |left_thumbstick_up_down|)
      |right_thumbstick_left_right|) |right_thumbstick_up_down|
  { axis_info := axis_info
    pulsewidths := pulsewidths
    to_arduino := to_arduino
    rumble_intensity := |rumble_freq| }

/-- Modelled from the spec sentence under test for the rumble claim: the
haptic intensity as the maximum absolute value across all sampled axes of
the tick, taken on the raw values regardless of the deadzone outcome.
This is the claimed behaviour, to be compared with
`check_joystick_tick`. -/
def rumble_intensity_spec (raw : RawAxes) : ℚ :=
  max (max (max (max (max |raw.axis0| |raw.axis1|) |raw.axis2|) |raw.axis3|)
    |raw.axis4|) |raw.axis5|

/-- Rendering of one `axisInfo` element inside `json.dumps` output.
Integer entries render exactly as Python prints them; the decimal text
Python produces for a float depends on the float repr algorithm and is
not modelled, so it is taken as a parameter. -/
def renderJVal (render_float : ℚ → String) : JVal → String
  | JVal.int n => toString n
  | JVal.float q => render_float q

/-- `json.dumps` of the `to_arduino` dictionary with the default Python
separators: one key `axisInfo` holding the positional array, each float
entry rendered by the given `render_float`. -/
def json_dumps_axis_info (render_float : ℚ → String) (vals : List JVal) : String :=
  "\x7b\"axisInfo\": [" ++
    String.intercalate ", " (vals.map (renderJVal render_float)) ++ "]\x7d"

/-- `ArduinoWriteWorker.handle_data` (arduinothread.py lines 134-145):
`payload` is `json.dumps(data)` followed by a null byte, encoded as UTF-8
and written to the serial port. -/
def arduino_write_payload (render_float : ℚ → String) (vals : List JVal) : String :=
  json_dumps_axis_info render_float vals ++ "\x00"

/-- The rate-limit step of `check_joystick_input` (joystickthread.py
lines 376-379): the command is handed to the Arduino thread and
`__last_sent_time` is updated exactly when
`current_time - self.__last_sent_time > ARDUINO_SEND_TIMER_MIN`;
otherwise the command is dropped and the state is unchanged. -/
def maybe_send (last_sent_time current_time : ℚ) : Bool × ℚ :=
  if current_time - last_sent_time > ARDUINO_SEND_TIMER_MIN then (true, current_time)
  else (false, last_sent_time)

/-- `maybe_send` folded over a list of tick timestamps: one `Bool` per
tick, `true` when the command of that tick was sent to the Arduino thread. -/
def run_dispatcher (last_sent_time : ℚ) : List ℚ → List Bool
  | [] => []
  | t :: ts =>
    (maybe_send last_sent_time t).1 :: run_dispatcher (maybe_send last_sent_time t).2 ts

/-- `ArduinoReadWorker.read_arduino` (arduinothread.py lines 66-77) run
over a list of already-read line payloads.  `json_loads` models
`payload.decode("utf-8")` followed by `json.loads`: `none` is the
exception case, which the loop logs and discards before continuing with
the next line; an empty payload is skipped by `if payload:`.  The emitted
telemetry frames are collected in order. -/
def read_arduino_loop {T : Type} (json_loads : String → Option T) :
    List String → List T
  | [] => []
  | payload :: rest =>
    if payload ≠ "" then
      match json_loads payload with
      | some data => data :: read_arduino_loop json_loads rest
      | none => read_arduino_loop json_loads rest
    else read_arduino_loop json_loads rest

/-- The axis snapshot after the sampler deadzone, with the sign flip of
axis 1 applied on read. -/
def deadzoned_axis_state (raw : RawAxes) : AxisState :=
  { tLeft_LeftRight := apply_deadzone raw.axis0
    tLeft_UpDown := apply_deadzone (-raw.axis1)
    tRight_LeftRight := apply_deadzone raw.axis2
    tRight_UpDown := apply_deadzone raw.axis3 }

example : map_to_pwm 0 = 1500 := by norm_num [map_to_pwm, PWM_DEADZONE_MIN]
example : map_to_pwm 1 = 1900 := by norm_num [map_to_pwm, PWM_DEADZONE_MIN]
example : map_to_pwm (-1) = 1100 := by norm_num [map_to_pwm, PWM_DEADZONE_MIN]
example : pyRound 1500 = 1500 := by norm_num [pyRound]
example : pyRound (5 / 2) = 2 := by norm_num [pyRound]

/-- `pyRound` never rounds below the floor. -/
lemma floor_le_pyRound (q : ℚ) : ⌊q⌋ ≤ pyRound q := by
  unfold pyRound
  split_ifs <;> omega

/-- `pyRound q` exceeds the floor only when the fractional part is at least 1/2. -/
lemma pyRound_le_floor_add_one (q : ℚ) : pyRound q ≤ ⌊q⌋ + 1 := by
  unfold pyRound
  split_ifs <;> omega

/-- If `pyRound` rounds up, the fractional part of `q` is nonzero. -/
lemma pyRound_eq_floor_of_fract_lt_half {q : ℚ} (h : q - ⌊q⌋ < 1 / 2) :
    pyRound q = ⌊q⌋ := by
  unfold pyRound
  rw [if_pos h]

/-- Integer lower bound transported through `pyRound`. -/
lemma le_pyRound_of_le {a : ℤ} {q : ℚ} (h : (a : ℚ) ≤ q) : a ≤ pyRound q := by
  have hf : a ≤ ⌊q⌋ := Int.le_floor.mpr h
  have := floor_le_pyRound q
  omega

/-- Integer upper bound transported through `pyRound`. -/
lemma pyRound_le_of_le {b : ℤ} {q : ℚ} (h : q ≤ (b : ℚ)) : pyRound q ≤ b := by
  rcases eq_or_lt_of_le h with heq | hlt
  · subst heq
    have h0 : (b : ℚ) - (⌊(b : ℚ)⌋ : ℚ) < 1 / 2 := by
      rw [Int.floor_intCast]
      norm_num
    rw [pyRound_eq_floor_of_fract_lt_half h0, Int.floor_intCast]
  · have hq : (⌊q⌋ : ℚ) < (b : ℚ) := lt_of_le_of_lt (Int.floor_le q) hlt
    have hfl : ⌊q⌋ < b := by exact_mod_cast hq
    have := pyRound_le_floor_add_one q
    omega

/-- The pwm map keeps values of `[-1, 1]` inside `[1100, 1900]`. -/
lemma map_to_pwm_mem {v : ℚ} (h1 : -1 ≤ v) (h2 : v ≤ 1) :
    1100 ≤ map_to_pwm v ∧ map_to_pwm v ≤ 1900 := by
  unfold map_to_pwm
  split_ifs
  · norm_num
  · constructor <;> nlinarith

/-- Rounding a pwm value of `[-1, 1]` stays inside `[1100, 1900]`. -/
lemma pyRound_map_to_pwm_mem {v : ℚ} (h1 : -1 ≤ v) (h2 : v ≤ 1) :
    1100 ≤ pyRound (map_to_pwm v) ∧ pyRound (map_to_pwm v) ≤ 1900 := by
  obtain ⟨hl, hu⟩ := map_to_pwm_mem h1 h2
  constructor
  · exact le_pyRound_of_le (by exact_mod_cast hl)
  · exact pyRound_le_of_le (by exact_mod_cast hu)

/-- Rounding the resting pulsewidth returns it unchanged. -/
lemma pyRound_resting : pyRound RESTING_PULSEWIDTH = 1500 := by
  norm_num [RESTING_PULSEWIDTH, pyRound]

/-- The two-branch `if` chains of `__calculate_pulsewidth` produce
pulsewidths in `[1100, 1900]` when the axis lies in `[-1, 1]`. -/
lemma ifchain2_mem {v : ℚ} (h1 : -1 ≤ v) (h2 : v ≤ 1) (c1 c2 : Prop)
    [Decidable c1] [Decidable c2] :
    1100 ≤ pyRound (if c1 then map_to_pwm v
        else if c2 then map_to_pwm v else RESTING_PULSEWIDTH) ∧
      pyRound (if c1 then map_to_pwm v
        else if c2 then map_to_pwm v else RESTING_PULSEWIDTH) ≤ 1900 := by
  split_ifs
  · exact pyRound_map_to_pwm_mem h1 h2
  · exact pyRound_map_to_pwm_mem h1 h2
  · rw [pyRound_resting]
    exact ⟨by norm_num, by norm_num⟩

/-- The single-condition `if` chains of `__calculate_pulsewidth` produce
pulsewidths in `[1100, 1900]` when the axis lies in `[-1, 1]`. -/
lemma ifchain1_mem {v : ℚ} (h1 : -1 ≤ v) (h2 : v ≤ 1) (c : Prop) [Decidable c] :
    1100 ≤ pyRound (if c then map_to_pwm v else map_to_pwm v) ∧
      pyRound (if c then map_to_pwm v else map_to_pwm v) ≤ 1900 := by
  split_ifs <;> exact pyRound_map_to_pwm_mem h1 h2

lemma calculate_pulsewidth_fb (a : AxisState) :
    (calculate_pulsewidth a).forward_backward_pulsewidth =
      pyRound (if a.tLeft_UpDown < 0 then map_to_pwm a.tLeft_UpDown
        else if a.tLeft_UpDown > 0 then map_to_pwm a.tLeft_UpDown
        else RESTING_PULSEWIDTH) := rfl

lemma calculate_pulsewidth_left (a : AxisState) :
    (calculate_pulsewidth a).left_pulsewidth =
      pyRound (if a.tLeft_LeftRight < 0 then map_to_pwm a.tLeft_LeftRight
        else if a.tLeft_LeftRight > 0 then map_to_pwm a.tLeft_LeftRight
        else RESTING_PULSEWIDTH) := rfl

lemma calculate_pulsewidth_right (a : AxisState) :
    (calculate_pulsewidth a).right_pulsewidth =
      pyRound (if a.tLeft_LeftRight < 0 then map_to_pwm (-a.tLeft_LeftRight)
        else if a.tLeft_LeftRight > 0 then map_to_pwm (-a.tLeft_LeftRight)
        else RESTING_PULSEWIDTH) := rfl

lemma calculate_pulsewidth_ascend (a : AxisState) :
    (calculate_pulsewidth a).ascend_descend_pulsewidth =
      pyRound (if a.tRight_UpDown < 0 then map_to_pwm a.tRight_UpDown
        else map_to_pwm a.tRight_UpDown) := rfl

lemma calculate_pulsewidth_pitch_left (a : AxisState) :
    (calculate_pulsewidth a).pitch_left_pulsewidth =
      pyRound (if a.tRight_LeftRight < 0 then map_to_pwm a.tRight_LeftRight
        else map_to_pwm a.tRight_LeftRight) := rfl

lemma calculate_pulsewidth_pitch_right (a : AxisState) :
    (calculate_pulsewidth a).pitch_right_pulsewidth =
      pyRound (if a.tRight_LeftRight < 0 then map_to_pwm (-a.tRight_LeftRight)
        else map_to_pwm (-a.tRight_LeftRight)) := rfl

/-- All six fields of `__calculate_pulsewidth` lie in `[1100, 1900]` for
axes in `[-1, 1]`. -/
lemma calculate_pulsewidth_fields_mem (a : AxisState)
    (h1 : -1 ≤ a.tLeft_LeftRight) (h2 : a.tLeft_LeftRight ≤ 1)
    (h3 : -1 ≤ a.tLeft_UpDown) (h4 : a.tLeft_UpDown ≤ 1)
    (h5 : -1 ≤ a.tRight_LeftRight) (h6 : a.tRight_LeftRight ≤ 1)
    (h7 : -1 ≤ a.tRight_UpDown) (h8 : a.tRight_UpDown ≤ 1) :
    (1100 ≤ (calculate_pulsewidth a).forward_backward_pulsewidth ∧
        (calculate_pulsewidth a).forward_backward_pulsewidth ≤ 1900) ∧
      (1100 ≤ (calculate_pulsewidth a).left_pulsewidth ∧
        (calculate_pulsewidth a).left_pulsewidth ≤ 1900) ∧
      (1100 ≤ (calculate_pulsewidth a).right_pulsewidth ∧
        (calculate_pulsewidth a).right_pulsewidth ≤ 1900) ∧
      (1100 ≤ (calculate_pulsewidth a).ascend_descend_pulsewidth ∧
        (calculate_pulsewidth a).ascend_descend_pulsewidth ≤ 1900) ∧
      (1100 ≤ (calculate_pulsewidth a).pitch_left_pulsewidth ∧
        (calculate_pulsewidth a).pitch_left_pulsewidth ≤ 1900) ∧
      (1100 ≤ (calculate_pulsewidth a).pitch_right_pulsewidth ∧
        (calculate_pulsewidth a).pitch_right_pulsewidth ≤ 1900) := by
  rw [calculate_pulsewidth_fb, calculate_pulsewidth_left, calculate_pulsewidth_right,
    calculate_pulsewidth_ascend, calculate_pulsewidth_pitch_left,
    calculate_pulsewidth_pitch_right]
  exact ⟨ifchain2_mem h3 h4 _ _, ifchain2_mem h1 h2 _ _,
    ifchain2_mem (by linarith) (by linarith) _ _, ifchain1_mem h7 h8 _,
    ifchain1_mem h5 h6 _, ifchain1_mem (by linarith) (by linarith) _⟩

/-- C1: the resting axis state (every axis equal to 0) maps to a
ThrustCommand whose six fields are all exactly 1500. -/
theorem resting_axis_state_maps_to_1500 :
    calculate_pulsewidth ⟨0, 0, 0, 0⟩ = ⟨1500, 1500, 1500, 1500, 1500, 1500⟩ := by
  norm_num [calculate_pulsewidth, RESTING_PULSEWIDTH, map_to_pwm, PWM_DEADZONE_MIN, pyRound]

/-- C2: every axis input `v` with `|v| ≤ PWM_DEADZONE_MIN` maps to exactly
1500 under `__map_to_pwm`. -/
theorem pwm_deadzone_returns_1500 (v : ℚ) (h : |v| ≤ PWM_DEADZONE_MIN) :
    map_to_pwm v = 1500 := by
  rw [abs_le] at h
  unfold map_to_pwm
  rw [if_pos ⟨h.1, h.2⟩]

/-- Witness for C2 at the deadzone boundary `v = 1/10`. -/
theorem pwm_deadzone_returns_1500_witness : map_to_pwm (1 / 10) = 1500 :=
  pwm_deadzone_returns_1500 (1 / 10) (by norm_num [PWM_DEADZONE_MIN, abs_le])

/-- C3: for every AxisState whose axes lie in `[-1, 1]`, all six fields of
the ThrustCommand are integers in `[1100, 1900]`. -/
theorem pulsewidth_fields_in_range (a : AxisState)
    (h1 : -1 ≤ a.tLeft_LeftRight) (h2 : a.tLeft_LeftRight ≤ 1)
    (h3 : -1 ≤ a.tLeft_UpDown) (h4 : a.tLeft_UpDown ≤ 1)
    (h5 : -1 ≤ a.tRight_LeftRight) (h6 : a.tRight_LeftRight ≤ 1)
    (h7 : -1 ≤ a.tRight_UpDown) (h8 : a.tRight_UpDown ≤ 1) :
    (1100 ≤ (calculate_pulsewidth a).forward_backward_pulsewidth ∧
        (calculate_pulsewidth a).forward_backward_pulsewidth ≤ 1900) ∧
      (1100 ≤ (calculate_pulsewidth a).left_pulsewidth ∧
        (calculate_pulsewidth a).left_pulsewidth ≤ 1900) ∧
      (1100 ≤ (calculate_pulsewidth a).right_pulsewidth ∧
        (calculate_pulsewidth a).right_pulsewidth ≤ 1900) ∧
      (1100 ≤ (calculate_pulsewidth a).ascend_descend_pulsewidth ∧
        (calculate_pulsewidth a).ascend_descend_pulsewidth ≤ 1900) ∧
      (1100 ≤ (calculate_pulsewidth a).pitch_left_pulsewidth ∧
        (calculate_pulsewidth a).pitch_left_pulsewidth ≤ 1900) ∧
      (1100 ≤ (calculate_pulsewidth a).pitch_right_pulsewidth ∧
        (calculate_pulsewidth a).pitch_right_pulsewidth ≤ 1900) :=
  calculate_pulsewidth_fields_mem a h1 h2 h3 h4 h5 h6 h7 h8

/-- Witness for C3 at the axis state `(1, -1, 1/2, 9/10)`. -/
theorem pulsewidth_fields_in_range_witness :
    1100 ≤ (calculate_pulsewidth ⟨1, -1, 1 / 2, 9 / 10⟩).forward_backward_pulsewidth ∧
      (calculate_pulsewidth ⟨1, -1, 1 / 2, 9 / 10⟩).forward_backward_pulsewidth ≤ 1900 :=
  (pulsewidth_fields_in_range ⟨1, -1, 1 / 2, 9 / 10⟩ (by norm_num) (by norm_num)
    (by norm_num) (by norm_num) (by norm_num) (by norm_num) (by norm_num) (by norm_num)).1

/-- C4: for `k` in `[-1, 1]`, the differential pairs are antisymmetric:
the left/right fields at `leftStickX = k` equal the swapped fields at
`leftStickX = -k`, and likewise for the pitch pair driven by
`rightStickX`. -/
theorem differential_pairs_antisymmetric (k : ℚ) (hk1 : -1 ≤ k) (hk2 : k ≤ 1) :
    (calculate_pulsewidth ⟨k, 0, 0, 0⟩).left_pulsewidth =
        (calculate_pulsewidth ⟨-k, 0, 0, 0⟩).right_pulsewidth ∧
      (calculate_pulsewidth ⟨k, 0, 0, 0⟩).right_pulsewidth =
        (calculate_pulsewidth ⟨-k, 0, 0, 0⟩).left_pulsewidth ∧
      (calculate_pulsewidth ⟨0, 0, k, 0⟩).pitch_left_pulsewidth =
        (calculate_pulsewidth ⟨0, 0, -k, 0⟩).pitch_right_pulsewidth ∧
      (calculate_pulsewidth ⟨0, 0, k, 0⟩).pitch_right_pulsewidth =
        (calculate_pulsewidth ⟨0, 0, -k, 0⟩).pitch_left_pulsewidth := by
  rw [calculate_pulsewidth_left, calculate_pulsewidth_right,
    calculate_pulsewidth_left, calculate_pulsewidth_right,
    calculate_pulsewidth_pitch_left, calculate_pulsewidth_pitch_right,
    calculate_pulsewidth_pitch_left, calculate_pulsewidth_pitch_right]
  rcases lt_trichotomy k 0 with hk | hk | hk
  · have ha : ¬(-k < 0) := by linarith
    have hb : (0 : ℚ) < -k := by linarith
    simp [hk, ha, hb, not_lt.mpr hk.le, neg_neg]
  · subst hk
    norm_num
  · have ha : ¬(k < 0) := by linarith
    have hb : -k < 0 := by linarith
    simp [hk, ha, hb, neg_neg]

/-- Witness for C4 at `k = 4/5`. -/
theorem differential_pairs_antisymmetric_witness :
    (calculate_pulsewidth ⟨4 / 5, 0, 0, 0⟩).left_pulsewidth =
      (calculate_pulsewidth ⟨-(4 / 5), 0, 0, 0⟩).right_pulsewidth :=
  (differential_pairs_antisymmetric (4 / 5) (by norm_num) (by norm_num)).1

lemma maybe_send_pos {last t : ℚ} (h : t - last > ARDUINO_SEND_TIMER_MIN) :
    maybe_send last t = (true, t) := by
  unfold maybe_send
  rw [if_pos h]

lemma maybe_send_neg {last t : ℚ} (h : ¬(t - last > ARDUINO_SEND_TIMER_MIN)) :
    maybe_send last t = (false, last) := by
  unfold maybe_send
  rw [if_neg h]

lemma run_dispatcher_cons (last t : ℚ) (ts : List ℚ) :
    run_dispatcher last (t :: ts) =
      (maybe_send last t).1 :: run_dispatcher (maybe_send last t).2 ts := rfl

/-- If every remaining tick is still within the send interval of the last
send, the dispatcher sends nothing. -/
lemma run_dispatcher_none_sent (ts : List ℚ) :
    ∀ last : ℚ, (∀ t ∈ ts, t - last ≤ ARDUINO_SEND_TIMER_MIN) →
      ∀ b ∈ run_dispatcher last ts, b = false := by
  induction ts with
  | nil =>
    intro last _ b hb
    simp [run_dispatcher] at hb
  | cons t ts ih =>
    intro last h b hb
    have hns : ¬(t - last > ARDUINO_SEND_TIMER_MIN) := not_lt.mpr (h t (by simp))
    rw [run_dispatcher_cons, maybe_send_neg hns] at hb
    rcases List.mem_cons.mp hb with hb | hb
    · exact hb
    · exact ih last (fun u hu => h u (by simp [hu])) b hb

/-- Ticks all within one send-interval window produce at most one send. -/
lemma run_dispatcher_count_le_one (ts : List ℚ) :
    ∀ last : ℚ, (∀ a ∈ ts, ∀ b ∈ ts, b - a ≤ ARDUINO_SEND_TIMER_MIN) →
      (run_dispatcher last ts).count true ≤ 1 := by
  induction ts with
  | nil =>
    intro last _
    simp [run_dispatcher]
  | cons t ts ih =>
    intro last hspan
    by_cases hs : t - last > ARDUINO_SEND_TIMER_MIN
    · rw [run_dispatcher_cons, maybe_send_pos hs]
      have hrest : ∀ b ∈ run_dispatcher t ts, b = false :=
        run_dispatcher_none_sent ts t
          (fun u hu => hspan t (by simp) u (by simp [hu]))
      have hzero : (run_dispatcher t ts).count true = 0 := by
        rw [List.count_eq_zero]
        intro hmem
        exact absurd (hrest true hmem) (by simp)
      simp [List.count_cons, hzero]
    · rw [run_dispatcher_cons, maybe_send_neg hs]
      have := ih last (fun a ha b hb => hspan a (by simp [ha]) b (by simp [hb]))
      simpa [List.count_cons] using this

/-- Ticks spaced strictly more than the send interval apart (including the
gap from the initial last-sent time) are all sent. -/
lemma run_dispatcher_all_sent (ts : List ℚ) :
    ∀ last : ℚ, List.Chain (fun a b => b - a > ARDUINO_SEND_TIMER_MIN) last ts →
      ∀ b ∈ run_dispatcher last ts, b = true := by
  induction ts with
  | nil =>
    intro last _ b hb
    simp [run_dispatcher] at hb
  | cons t ts ih =>
    intro last hchain b hb
    rw [List.chain_cons] at hchain
    rw [run_dispatcher_cons, maybe_send_pos hchain.1] at hb
    rcases List.mem_cons.mp hb with hb | hb
    · exact hb
    · exact ih t hchain.2 b hb

/-- C5: the command dispatcher hands the command to the Arduino writer and
updates the last-sent time exactly when `now - lastSentAt` exceeds
`ARDUINO_SEND_TIMER_MIN`; a burst of ticks all lying within one interval
window produces at most one send, and ticks spaced strictly more than the
interval apart (also from the initial last-sent time) are all sent. -/
theorem dispatcher_rate_limit :
    (∀ last now : ℚ,
        ((maybe_send last now).1 = true ↔ now - last > ARDUINO_SEND_TIMER_MIN) ∧
          (maybe_send last now).2 =
            if now - last > ARDUINO_SEND_TIMER_MIN then now else last) ∧
      (∀ (last : ℚ) (ts : List ℚ),
        (∀ a ∈ ts, ∀ b ∈ ts, b - a ≤ ARDUINO_SEND_TIMER_MIN) →
          (run_dispatcher last ts).count true ≤ 1) ∧
      (∀ (last : ℚ) (ts : List ℚ),
        List.Chain (fun a b => b - a > ARDUINO_SEND_TIMER_MIN) last ts →
          ∀ b ∈ run_dispatcher last ts, b = true) := by
  refine ⟨?_, ?_, ?_⟩
  · intro last now
    unfold maybe_send
    split_ifs with h <;> simp [h]
  · intro last ts h
    exact run_dispatcher_count_le_one ts last h
  · intro last ts h
    exact run_dispatcher_all_sent ts last h

/-- Witness for C5: the burst `[1/5, 1/4]` from last-sent time 0 produces
at most one send, and the spaced ticks `[1/5, 2/5]` are all sent. -/
theorem dispatcher_rate_limit_witness :
    (run_dispatcher 0 [1 / 5, 1 / 4]).count true ≤ 1 ∧
      ∀ b ∈ run_dispatcher 0 [1 / 5, 2 / 5], b = true := by
  constructor
  · refine dispatcher_rate_limit.2.1 0 [1 / 5, 1 / 4] ?_
    intro a ha b hb
    fin_cases ha <;> fin_cases hb <;> norm_num [ARDUINO_SEND_TIMER_MIN]
  · refine dispatcher_rate_limit.2.2 0 [1 / 5, 2 / 5] ?_
    simp only [List.chain_cons, List.Chain.nil]
    norm_num [ARDUINO_SEND_TIMER_MIN]

lemma apply_deadzone_eq_zero {v : ℚ} (h : |v| < DEADZONE_MIN) :
    apply_deadzone v = 0 := by
  unfold apply_deadzone
  rw [if_pos h]

lemma apply_deadzone_eq_self {v : ℚ} (h : ¬(|v| < DEADZONE_MIN)) :
    apply_deadzone v = v := by
  unfold apply_deadzone
  rw [if_neg h]

lemma check_joystick_tick_axis_info (raw : RawAxes) :
    (check_joystick_tick raw).axis_info = deadzoned_axis_state raw := rfl

/-- C6: a raw axis value inside the sampler deadzone yields an AxisState
field of exactly 0; any other value is passed through unchanged; and the
axis state the tick passes downstream is exactly the per-axis deadzone
applied to the four (sign-corrected) thumbstick readings. -/
theorem sampler_deadzone_clamps :
    (∀ v : ℚ, |v| < DEADZONE_MIN → apply_deadzone v = 0) ∧
      (∀ v : ℚ, ¬(|v| < DEADZONE_MIN) → apply_deadzone v = v) ∧
      ∀ raw : RawAxes, (check_joystick_tick raw).axis_info = deadzoned_axis_state raw :=
  ⟨fun _ h => apply_deadzone_eq_zero h, fun _ h => apply_deadzone_eq_self h,
    fun raw => check_joystick_tick_axis_info raw⟩

/-- Witness for C6 at `v = 1/2` (clamped) and `v = -9/10` (passed). -/
theorem sampler_deadzone_clamps_witness :
    apply_deadzone (1 / 2) = 0 ∧ apply_deadzone (-(9 / 10)) = -(9 / 10) :=
  ⟨sampler_deadzone_clamps.1 (1 / 2) (by rw [abs_lt]; constructor <;> norm_num [DEADZONE_MIN]),
    sampler_deadzone_clamps.2.1 (-(9 / 10))
      (by rw [abs_lt, DEADZONE_MIN]; norm_num)⟩

lemma check_joystick_tick_rumble (raw : RawAxes) :
    (check_joystick_tick raw).rumble_intensity =
      abs (max (max (max |apply_deadzone raw.axis0| |apply_deadzone (-raw.axis1)|)
        |apply_deadzone raw.axis2|) |apply_deadzone raw.axis3|) := rfl

/-- C7 counterexample: at raw axes `(1/2, 0, 0, 0, 0, 0)` the rumble call
receives intensity 0 (the deadzone has zeroed the axis first), while the
claimed `max(|axis_i|)` over the sampled raw values is 1/2. -/
theorem rumble_intensity_counterexample :
    (check_joystick_tick ⟨1 / 2, 0, 0, 0, 0, 0⟩).rumble_intensity = 0 ∧
      rumble_intensity_spec ⟨1 / 2, 0, 0, 0, 0, 0⟩ = 1 / 2 := by
  have e0 : apply_deadzone (1 / 2 : ℚ) = 0 :=
    apply_deadzone_eq_zero (by rw [abs_lt]; constructor <;> norm_num [DEADZONE_MIN])
  have ez : apply_deadzone (0 : ℚ) = 0 :=
    apply_deadzone_eq_zero (by rw [abs_zero]; norm_num [DEADZONE_MIN])
  have h12 : |(1 / 2 : ℚ)| = 1 / 2 := abs_of_nonneg (by norm_num)
  constructor
  · rw [check_joystick_tick_rumble]
    norm_num [e0, ez]
  · rw [rumble_intensity_spec]
    norm_num [h12, max_def]

/-- C7 amended: the rumble call is made on every connected tick and its
intensity equals the maximum absolute value of the four deadzoned
thumbstick axes (the triggers are not consulted, and an axis zeroed by the
deadzone contributes 0 rather than its raw magnitude). -/
theorem rumble_intensity_amended (raw : RawAxes) :
    (check_joystick_tick raw).rumble_intensity =
      max (max (max |apply_deadzone raw.axis0| |apply_deadzone (-raw.axis1)|)
        |apply_deadzone raw.axis2|) |apply_deadzone raw.axis3| := by
  rw [check_joystick_tick_rumble]
  exact abs_of_nonneg (le_trans (abs_nonneg _) (le_max_right _ _))

/-- C8: the reader loop survives a malformed line—it is logged and
discarded and the loop goes on—so a malformed line followed by a
well-formed one forwards exactly one telemetry frame, and dropping a
malformed head never changes the frames produced from the rest. -/
theorem reader_resync {T : Type} (json_loads : String → Option T)
    (m w : String) (f : T) (hm : json_loads m = none)
    (hw : json_loads w = some f) (hwne : w ≠ "") :
    read_arduino_loop json_loads [m, w] = [f] ∧
      ∀ rest : List String,
        read_arduino_loop json_loads (m :: rest) = read_arduino_loop json_loads rest := by
  have hstep : ∀ rest : List String,
      read_arduino_loop json_loads (m :: rest) = read_arduino_loop json_loads rest := by
    intro rest
    by_cases hm0 : m = ""
    · simp [read_arduino_loop, hm0]
    · simp [read_arduino_loop, hm0, hm]
  refine ⟨?_, hstep⟩
  rw [hstep [w]]
  simp [read_arduino_loop, hwne, hw]

/-- Witness for C8 with a toy parser accepting only the line `ok`. -/
theorem reader_resync_witness :
    read_arduino_loop (fun s => if s = "ok" then some 7 else none) ["bad", "ok"] = [7] :=
  (reader_resync (fun s => if s = "ok" then some 7 else none) "bad" "ok" 7
    (by simp) (by simp) (by simp)).1

lemma check_joystick_tick_to_arduino (raw : RawAxes) :
    (check_joystick_tick raw).to_arduino =
      [JVal.int (calculate_pulsewidth (deadzoned_axis_state raw)).forward_backward_pulsewidth,
        JVal.int (calculate_pulsewidth (deadzoned_axis_state raw)).left_pulsewidth,
        JVal.int (calculate_pulsewidth (deadzoned_axis_state raw)).right_pulsewidth,
        JVal.int (calculate_pulsewidth (deadzoned_axis_state raw)).ascend_descend_pulsewidth,
        JVal.int (calculate_pulsewidth (deadzoned_axis_state raw)).pitch_left_pulsewidth,
        JVal.int (calculate_pulsewidth (deadzoned_axis_state raw)).pitch_right_pulsewidth,
        if |raw.axis4| < DEADZONE_MIN then JVal.int 0 else JVal.float raw.axis4,
        if |raw.axis5| < DEADZONE_MIN then JVal.int 0 else JVal.float raw.axis5] := rfl

/-- C9 counterexample: with a raw left trigger of 4/5 (outside the
trigger deadzone), the seventh element of the transmitted `axisInfo`
array is the float 4/5, so not every element is an integer pulsewidth. -/
theorem axis_info_elements_counterexample :
    ¬ ∀ el ∈ (check_joystick_tick ⟨0, 0, 0, 0, 4 / 5, 0⟩).to_arduino,
        ∃ n : ℤ, el = JVal.int n := by
  intro h
  have h4 : ¬(|(4 / 5 : ℚ)| < DEADZONE_MIN) := by
    rw [abs_of_nonneg (by norm_num : (0 : ℚ) ≤ 4 / 5), DEADZONE_MIN]
    norm_num
  have hmem : JVal.float (4 / 5) ∈
      (check_joystick_tick ⟨0, 0, 0, 0, 4 / 5, 0⟩).to_arduino := by
    rw [check_joystick_tick_to_arduino]
    simp [h4]
  obtain ⟨n, hn⟩ := h _ hmem
  exact JVal.noConfusion hn

/-- `apply_deadzone` preserves membership in `[-1, 1]`. -/
lemma apply_deadzone_mem {v : ℚ} (h1 : -1 ≤ v) (h2 : v ≤ 1) :
    -1 ≤ apply_deadzone v ∧ apply_deadzone v ≤ 1 := by
  unfold apply_deadzone
  split_ifs
  · norm_num
  · exact ⟨h1, h2⟩

/-- A trigger whose raw value escapes the trigger deadzone is nonzero and
passes through the deadzone unchanged. -/
lemma deadzone_escaped_nonzero {v : ℚ} (h : ¬(|v| < DEADZONE_MIN)) :
    apply_deadzone v = v ∧ v ≠ 0 := by
  refine ⟨apply_deadzone_eq_self h, ?_⟩
  intro h0
  apply h
  rw [h0, abs_zero, DEADZONE_MIN]
  norm_num

/-- C9 amended: the frame written to the serial port is the UTF-8 JSON
serialization of the object with single key `axisInfo` holding an
eight-element positional array, followed by a null byte; the first six
elements are the six rounded pulsewidths in fixed order (forward/backward,
left, right, ascend/descend, pitch left, pitch right)—integers in
`[1100, 1900]` whenever the raw axes lie in `[-1, 1]`—and the seventh and
eighth elements are the deadzone-filtered trigger values: the JSON
integer 0 when the raw trigger lies inside the trigger deadzone, and
otherwise the raw trigger as a float, which is then necessarily
nonzero. -/
theorem axis_info_first_six_integer_pulsewidths (raw : RawAxes)
    (h0a : -1 ≤ raw.axis0) (h0b : raw.axis0 ≤ 1)
    (h1a : -1 ≤ raw.axis1) (h1b : raw.axis1 ≤ 1)
    (h2a : -1 ≤ raw.axis2) (h2b : raw.axis2 ≤ 1)
    (h3a : -1 ≤ raw.axis3) (h3b : raw.axis3 ≤ 1) :
    (check_joystick_tick raw).to_arduino.length = 8 ∧
      (check_joystick_tick raw).to_arduino.take 6 =
        [JVal.int (calculate_pulsewidth (deadzoned_axis_state raw)).forward_backward_pulsewidth,
          JVal.int (calculate_pulsewidth (deadzoned_axis_state raw)).left_pulsewidth,
          JVal.int (calculate_pulsewidth (deadzoned_axis_state raw)).right_pulsewidth,
          JVal.int (calculate_pulsewidth (deadzoned_axis_state raw)).ascend_descend_pulsewidth,
          JVal.int (calculate_pulsewidth (deadzoned_axis_state raw)).pitch_left_pulsewidth,
          JVal.int (calculate_pulsewidth (deadzoned_axis_state raw)).pitch_right_pulsewidth] ∧
      (∀ el ∈ (check_joystick_tick raw).to_arduino.take 6,
        ∃ n : ℤ, el = JVal.int n ∧ 1100 ≤ n ∧ n ≤ 1900) ∧
      (((check_joystick_tick raw).to_arduino.get? 6 = some (JVal.int 0) ∧
          apply_deadzone raw.axis4 = 0) ∨
        ((check_joystick_tick raw).to_arduino.get? 6 =
            some (JVal.float (apply_deadzone raw.axis4)) ∧
          apply_deadzone raw.axis4 ≠ 0)) ∧
      (((check_joystick_tick raw).to_arduino.get? 7 = some (JVal.int 0) ∧
          apply_deadzone raw.axis5 = 0) ∨
        ((check_joystick_tick raw).to_arduino.get? 7 =
            some (JVal.float (apply_deadzone raw.axis5)) ∧
          apply_deadzone raw.axis5 ≠ 0)) ∧
      ∀ render_float : ℚ → String,
        arduino_write_payload render_float (check_joystick_tick raw).to_arduino =
          "\x7b\"axisInfo\": [" ++
            String.intercalate ", "
              ((check_joystick_tick raw).to_arduino.map (renderJVal render_float)) ++
            "]\x7d" ++ "\x00" := by
  have hdz0 := apply_deadzone_mem h0a h0b
  have hdz1 := apply_deadzone_mem (by linarith : (-1 : ℚ) ≤ -raw.axis1)
    (by linarith : -raw.axis1 ≤ 1)
  have hdz2 := apply_deadzone_mem h2a h2b
  have hdz3 := apply_deadzone_mem h3a h3b
  obtain ⟨⟨hfb1, hfb2⟩, ⟨hl1, hl2⟩, ⟨hr1, hr2⟩, ⟨ha1, ha2⟩, ⟨hpl1, hpl2⟩, ⟨hpr1, hpr2⟩⟩ :=
    calculate_pulsewidth_fields_mem (deadzoned_axis_state raw)
      hdz0.1 hdz0.2 hdz1.1 hdz1.2 hdz2.1 hdz2.2 hdz3.1 hdz3.2
  have htake : ∀ (a b c d e f g h : JVal),
      ([a, b, c, d, e, f, g, h].take 6) = [a, b, c, d, e, f] :=
    fun _ _ _ _ _ _ _ _ => rfl
  refine ⟨by rw [check_joystick_tick_to_arduino]; rfl,
    by rw [check_joystick_tick_to_arduino, htake], ?_, ?_, ?_, fun _ => rfl⟩
  · rw [check_joystick_tick_to_arduino, htake]
    intro el hel
    rcases List.mem_cons.mp hel with rfl | hel
    · exact ⟨_, rfl, hfb1, hfb2⟩
    rcases List.mem_cons.mp hel with rfl | hel
    · exact ⟨_, rfl, hl1, hl2⟩
    rcases List.mem_cons.mp hel with rfl | hel
    · exact ⟨_, rfl, hr1, hr2⟩
    rcases List.mem_cons.mp hel with rfl | hel
    · exact ⟨_, rfl, ha1, ha2⟩
    rcases List.mem_cons.mp hel with rfl | hel
    · exact ⟨_, rfl, hpl1, hpl2⟩
    rcases List.mem_cons.mp hel with rfl | hel
    · exact ⟨_, rfl, hpr1, hpr2⟩
    exact absurd hel (List.not_mem_nil el)
  · by_cases h4 : |raw.axis4| < DEADZONE_MIN
    · left
      refine ⟨?_, apply_deadzone_eq_zero h4⟩
      rw [check_joystick_tick_to_arduino, if_pos h4]
      rfl
    · right
      obtain ⟨he, hne⟩ := deadzone_escaped_nonzero h4
      refine ⟨?_, by rw [he]; exact hne⟩
      rw [he, check_joystick_tick_to_arduino, if_neg h4]
      rfl
  · by_cases h5 : |raw.axis5| < DEADZONE_MIN
    · left
      refine ⟨?_, apply_deadzone_eq_zero h5⟩
      rw [check_joystick_tick_to_arduino, if_pos h5]
      rfl
    · right
      obtain ⟨he, hne⟩ := deadzone_escaped_nonzero h5
      refine ⟨?_, by rw [he]; exact hne⟩
      rw [he, check_joystick_tick_to_arduino, if_neg h5]
      rfl

/-- Witness for the amended C9 at the raw axes `(0, 0, 0, 0, 4/5, 0)`:
eight elements, with the live left trigger appearing as the nonzero float
4/5 and the resting right trigger as the integer 0. -/
theorem axis_info_first_six_integer_pulsewidths_witness :
    (check_joystick_tick ⟨0, 0, 0, 0, 4 / 5, 0⟩).to_arduino.length = 8 ∧
      (((check_joystick_tick ⟨0, 0, 0, 0, 4 / 5, 0⟩).to_arduino.get? 6 =
            some (JVal.int 0) ∧ apply_deadzone (4 / 5 : ℚ) = 0) ∨
        ((check_joystick_tick ⟨0, 0, 0, 0, 4 / 5, 0⟩).to_arduino.get? 6 =
            some (JVal.float (apply_deadzone (4 / 5 : ℚ))) ∧
          apply_deadzone (4 / 5 : ℚ) ≠ 0)) ∧
      (((check_joystick_tick ⟨0, 0, 0, 0, 4 / 5, 0⟩).to_arduino.get? 7 =
            some (JVal.int 0) ∧ apply_deadzone (0 : ℚ) = 0) ∨
        ((check_joystick_tick ⟨0, 0, 0, 0, 4 / 5, 0⟩).to_arduino.get? 7 =
            some (JVal.float (apply_deadzone (0 : ℚ))) ∧
          apply_deadzone (0 : ℚ) ≠ 0)) := by
  have h := axis_info_first_six_integer_pulsewidths ⟨0, 0, 0, 0, 4 / 5, 0⟩
    (by norm_num) (by norm_num) (by norm_num) (by norm_num)
    (by norm_num) (by norm_num) (by norm_num) (by norm_num)
  exact ⟨h.1, h.2.2.2.1, h.2.2.2.2.1⟩

/-- C10: composing the sampler deadzone with `__map_to_pwm` and rounding
sends every raw thumbstick value of `[-1, 1]` to 1500 or into
`[1100, 1200]` or `[1800, 1900]`; no other pulsewidth strictly between
1200 and 1800 can be produced. -/
theorem composed_pulsewidth_band (v : ℚ) (h1 : -1 ≤ v) (h2 : v ≤ 1) :
    pyRound (map_to_pwm (apply_deadzone v)) = 1500 ∨
      (1100 ≤ pyRound (map_to_pwm (apply_deadzone v)) ∧
        pyRound (map_to_pwm (apply_deadzone v)) ≤ 1200) ∨
      (1800 ≤ pyRound (map_to_pwm (apply_deadzone v)) ∧
        pyRound (map_to_pwm (apply_deadzone v)) ≤ 1900) := by
  unfold apply_deadzone
  split_ifs with hdz
  · left
    have hz : map_to_pwm 0 = 1500 := by norm_num [map_to_pwm, PWM_DEADZONE_MIN]
    rw [hz]
    exact pyRound_resting
  · have habs : DEADZONE_MIN ≤ |v| := not_lt.mp hdz
    rcases abs_cases v with ⟨heq, hge⟩ | ⟨heq, hlt⟩
    · right; right
      have hv : 3 / 4 ≤ v := by
        rw [heq, DEADZONE_MIN] at habs
        exact habs
      have hm : map_to_pwm v = 400 * (v + 1) + 1100 := by
        unfold map_to_pwm
        rw [if_neg]
        rintro ⟨-, hle⟩
        rw [PWM_DEADZONE_MIN] at hle
        linarith
      rw [hm]
      constructor
      · apply le_pyRound_of_le
        push_cast
        linarith
      · apply pyRound_le_of_le
        push_cast
        linarith
    · right; left
      have hv : v ≤ -(3 / 4) := by
        rw [heq, DEADZONE_MIN] at habs
        linarith
      have hm : map_to_pwm v = 400 * (v + 1) + 1100 := by
        unfold map_to_pwm
        rw [if_neg]
        rintro ⟨hge2, -⟩
        rw [PWM_DEADZONE_MIN] at hge2
        have : -(1 / 10 : ℚ) ≤ v := hge2
        linarith
      rw [hm]
      constructor
      · apply le_pyRound_of_le
        push_cast
        linarith
      · apply pyRound_le_of_le
        push_cast
        linarith

/-- Witness for C10 at `v = 4/5`, which lands in the upper band. -/
theorem composed_pulsewidth_band_witness :
    pyRound (map_to_pwm (apply_deadzone (4 / 5))) = 1500 ∨
      (1100 ≤ pyRound (map_to_pwm (apply_deadzone (4 / 5))) ∧
        pyRound (map_to_pwm (apply_deadzone (4 / 5))) ≤ 1200) ∨
      (1800 ≤ pyRound (map_to_pwm (apply_deadzone (4 / 5))) ∧
        pyRound (map_to_pwm (apply_deadzone (4 / 5))) ≤ 1900) :=
  composed_pulsewidth_band (4 / 5) (by norm_num) (by norm_num)

end Rov
